import Mathlib

/-!
# Verification of the uniapi gateway's routing and dispatch core

This file is a shallow embedding, in Lean 4, of the request-routing core of
the uniapi LLM gateway.  The repository contains two implementations of the
core:

* the `uniapi` package (`src/uniapi/provider_pool.py`, `src/uniapi/config.py`,
  `src/uniapi/app.py`), whose dispatcher is `ProxyEngine.dispatch`;
* the `backend` application (`src/backend/app/services/gateway_service.py`,
  `src/backend/app/services/url_service.py`), whose dispatcher is
  `_process_gateway_request`.

Both are embedded here where the verified properties touch them.  Strings that
require structural reasoning (URL paths, glob patterns) are modelled as
`List Char` (abbreviated `Str`); strings used only as opaque tokens (header
names, provider names, error messages) are Lean `String`s.  Wall-clock
instants and durations are modelled as rationals (seconds); the upstream
network is modelled as an oracle assigning an outcome to every attempt, and
`random.shuffle` as an arbitrary permutation-producing function.
-/

namespace UniAPI

/-- Character-list strings, for the parts of the embedding that need
structural reasoning (`str.split`, `fnmatch`, …). -/
abbrev Str := List Char

/-! ## Splitting paths on `/` (Python `str.split("/")`) -/

/-- `s.split("/")`: split a character list at every `'/'`.  The result is
always non-empty; empty fields are preserved (they are filtered by `segs`). -/
def splitSlash : Str → List Str
  | [] => [[]]
  | c :: rest =>
    if c = '/' then [] :: splitSlash rest
    else
      match splitSlash rest with
      | [] => [[c]]
      | piece :: pieces => (c :: piece) :: pieces

/-- `[s for s in path.split("/") if s]`: the non-empty path segments. -/
def segs (s : Str) : List Str := (splitSlash s).filter (fun p => !p.isEmpty)

/-- `"/".join(segments)`. -/
def joinSegs : List Str → Str
  | [] => []
  | [s] => s
  | s :: t :: rest => s ++ '/' :: joinSegs (t :: rest)

theorem splitSlash_ne_nil (s : Str) : splitSlash s ≠ [] := by
  cases s with
  | nil => simp [splitSlash]
  | cons c rest =>
    simp only [splitSlash]
    split
    · simp
    · cases h : splitSlash rest <;> simp

theorem splitSlash_append (a b : Str) :
    splitSlash (a ++ '/' :: b) = splitSlash a ++ splitSlash b := by
  induction a with
  | nil => simp [splitSlash]
  | cons c a ih =>
    by_cases hc : c = '/'
    · subst hc
      simp [splitSlash, ih]
    · simp only [List.cons_append, splitSlash, if_neg hc, List.append_eq, ih]
      cases h : splitSlash a with
      | nil => exact absurd h (splitSlash_ne_nil a)
      | cons piece pieces => simp

theorem segs_append (a b : Str) : segs (a ++ '/' :: b) = segs a ++ segs b := by
  simp [segs, splitSlash_append, List.filter_append]

theorem segs_nil : segs [] = [] := by simp [segs, splitSlash]

theorem segs_cons_slash (b : Str) : segs ('/' :: b) = segs b := by
  simpa using segs_append [] b

theorem segs_append_slash (a : Str) : segs (a ++ ['/']) = segs a := by
  simpa [segs_nil] using segs_append a []

/-- A string without `'/'` splits into itself. -/
theorem splitSlash_no_slash (s : Str) (h : '/' ∉ s) : splitSlash s = [s] := by
  induction s with
  | nil => simp [splitSlash]
  | cons c rest ih =>
    simp only [List.mem_cons, not_or] at h
    have hc : c ≠ '/' := fun hh => h.1 hh.symm
    simp [splitSlash, hc, ih h.2]

theorem segs_no_slash (s : Str) (hs : s ≠ []) (h : '/' ∉ s) : segs s = [s] := by
  simp [segs, splitSlash_no_slash s h, hs]

/-- Every piece produced by `splitSlash` is slash-free. -/
theorem splitSlash_pieces_no_slash (s : Str) :
    ∀ p ∈ splitSlash s, '/' ∉ p := by
  induction s with
  | nil => simp [splitSlash]
  | cons c rest ih =>
    intro p hp
    by_cases hc : c = '/'
    · subst hc
      simp [splitSlash] at hp
      rcases hp with rfl | hp
      · simp
      · exact ih p hp
    · simp only [splitSlash, if_neg hc] at hp
      cases h : splitSlash rest with
      | nil => exact absurd h (splitSlash_ne_nil rest)
      | cons piece pieces =>
        rw [h] at hp
        simp at hp
        rcases hp with rfl | hp
        · intro hmem
          rcases List.mem_cons.mp hmem with h1 | h1
          · exact hc h1.symm
          · exact ih piece (h ▸ List.mem_cons_self _ _) h1
        · exact ih p (h ▸ List.mem_cons_of_mem _ hp)

theorem segs_pieces (s : Str) : ∀ p ∈ segs s, p ≠ [] ∧ '/' ∉ p := by
  intro p hp
  simp only [segs, List.mem_filter, Bool.not_eq_true', List.isEmpty_eq_false] at hp
  obtain ⟨hmem, hne⟩ := hp
  refine ⟨?_, splitSlash_pieces_no_slash s p hmem⟩
  simpa [List.isEmpty_iff] using hne

/-- `segs` of a rebuilt `"/".join`: the original segment list, provided each
segment is non-empty and slash-free. -/
theorem segs_joinSegs (l : List Str) (h : ∀ p ∈ l, p ≠ [] ∧ '/' ∉ p) :
    segs (joinSegs l) = l := by
  induction l with
  | nil => simp [joinSegs, segs_nil]
  | cons s rest ih =>
    cases rest with
    | nil =>
      have hs := h s (List.mem_cons_self _ _)
      simp [joinSegs, segs_no_slash s hs.1 hs.2]
    | cons t more =>
      have hs := h s (List.mem_cons_self _ _)
      have hrest : ∀ p ∈ t :: more, p ≠ [] ∧ '/' ∉ p := fun p hp =>
        h p (List.mem_cons_of_mem _ hp)
      simp [joinSegs, segs_append, segs_no_slash s hs.1 hs.2, ih hrest]

/-! ## URL composer (`src/backend/app/services/url_service.py`) -/

/-- `beta\d*` suffix of the version regex (case-insensitive, digits optional). -/
def isBetaSuffix : Str → Bool
  | b :: e :: t :: a :: rest =>
    b.toLower = 'b' && e.toLower = 'e' && t.toLower = 't' && a.toLower = 'a'
      && rest.all Char.isDigit
  | _ => false

/-- `_VERSION_RE = re.compile(r"^v\d+(?:beta\d*)?$", re.IGNORECASE)` applied
to one path segment (`_is_version_segment`). -/
def isVersionSegment : Str → Bool
  | [] => false
  | c :: rest =>
    c.toLower = 'v'
      && !(rest.takeWhile Char.isDigit).isEmpty
      && (let tail := rest.dropWhile Char.isDigit
          tail.isEmpty || isBetaSuffix tail)

def endsWithSlash (s : Str) : Bool := s.getLast? = some '/'

def startsWithSlash (s : Str) : Bool := s.head? = some '/'

/-- The final slash-placement step of `join_base_url` (lines 39-44):
one slash is kept at the boundary of the two path parts. -/
def slashJoin (basePath pathPart : Str) : Str :=
  if endsWithSlash basePath && startsWithSlash pathPart then
    basePath ++ pathPart.drop 1
  else if !endsWithSlash basePath && !startsWithSlash pathPart then
    basePath ++ '/' :: pathPart
  else
    basePath ++ pathPart

/-- `"/" + "/".join(segments) if segments else ""` — how `join_base_url`
rebuilds a path part after dropping a segment. -/
def rebuildPath (segments : List Str) : Str :=
  if segments.isEmpty then [] else '/' :: joinSegs segments

/-- The path-composition logic of `join_base_url` (lines 19-44), operating on
the path component of the already-split base URL and the inbound path.
Scheme, netloc, query and fragment are taken from the base URL unchanged by
`join_base_url` and are not modelled here. -/
def joinBasePath (basePath path : Str) : Str :=
  let baseSegments := segs basePath
  let pathSegments := segs path
  match baseSegments.getLast?, pathSegments.head? with
  | some lastBase, some headPath =>
    if lastBase = headPath then
      slashJoin (rebuildPath baseSegments.dropLast) path
    else if isVersionSegment lastBase && isVersionSegment headPath then
      slashJoin basePath (rebuildPath pathSegments.tail)
    else
      slashJoin basePath path
  | _, _ => slashJoin basePath path

/-- Python `str.rstrip("/")`: drop every trailing `'/'`
(`ProviderConfig.normalized_base_url`). -/
def rstripSlash (s : Str) : Str := (s.reverse.dropWhile (· = '/')).reverse

/-- Python `str.lstrip("/")`: drop every leading `'/'`. -/
def lstripSlash (s : Str) : Str := s.dropWhile (· = '/')

/-- The upstream URL built for each attempt by `ProxyEngine.dispatch`
(`src/uniapi/app.py` line 529):
`f"{provider.normalized_base_url()}/{request.url.path.lstrip('/')}"`. -/
def dispatchAttemptUrl (base_url path : Str) : Str :=
  rstripSlash base_url ++ '/' :: lstripSlash path

/-! ### Properties of the slash join -/

theorem segs_slashJoin (u v : Str) : segs (slashJoin u v) = segs u ++ segs v := by
  unfold slashJoin
  split
  · next h =>
    simp only [Bool.and_eq_true] at h
    obtain ⟨hu, hv⟩ := h
    unfold endsWithSlash at hu
    unfold startsWithSlash at hv
    obtain ⟨u', rfl⟩ : ∃ u', u = u' ++ ['/'] := by
      rcases List.eq_nil_or_concat u with rfl | ⟨u', c, rfl⟩
      · simp at hu
      · refine ⟨u', ?_⟩
        have : c = '/' := by simpa [List.getLast?_concat] using hu
        simp [this]
    cases v with
    | nil => simp at hv
    | cons c v' =>
      have : c = '/' := by simpa using hv
      subst this
      have : (u' ++ ['/']) ++ ('/' :: v').drop 1 = u' ++ '/' :: v' := by simp
      rw [this, segs_append, segs_append_slash, segs_cons_slash]
  · next h1 =>
    split
    · next h2 => rw [segs_append]
    · next h2 =>
      by_cases hu : endsWithSlash u
      · obtain ⟨u', rfl⟩ : ∃ u', u = u' ++ ['/'] := by
          unfold endsWithSlash at hu
          rcases List.eq_nil_or_concat u with rfl | ⟨u', c, rfl⟩
          · simp at hu
          · refine ⟨u', ?_⟩
            have : c = '/' := by simpa [List.getLast?_concat] using hu
            simp [this]
        have : (u' ++ ['/']) ++ v = u' ++ '/' :: v := by simp
        rw [this, segs_append, segs_append_slash]
      · have hv : startsWithSlash v = true := by
          cases hsv : startsWithSlash v
          · exact absurd (by simp [hu, hsv] : (!endsWithSlash u && !startsWithSlash v) = true) h2
          · rfl
        unfold startsWithSlash at hv
        cases v with
        | nil => simp at hv
        | cons c v' =>
          have : c = '/' := by simpa using hv
          subst this
          rw [segs_append, segs_cons_slash]

theorem segs_rebuildPath (l : List Str) (h : ∀ p ∈ l, p ≠ [] ∧ '/' ∉ p) :
    segs (rebuildPath l) = l := by
  unfold rebuildPath
  split
  · next hl => simp_all [List.isEmpty_iff, segs_nil]
  · rw [segs_cons_slash, segs_joinSegs l h]

/-- Remove a single trailing slash, if one is present. -/
def dropTrailingSlash (s : Str) : Str :=
  if endsWithSlash s then s.dropLast else s

/-- Remove a single leading slash, if one is present. -/
def dropLeadingSlash (s : Str) : Str :=
  if startsWithSlash s then s.drop 1 else s

theorem endsWithSlash_decomp (u : Str) (h : endsWithSlash u = true) :
    u.dropLast ++ ['/'] = u := by
  unfold endsWithSlash at h
  rcases List.eq_nil_or_concat u with rfl | ⟨u', c, rfl⟩
  · simp at h
  · have : c = '/' := by simpa [List.getLast?_concat] using h
    simp [this]

theorem startsWithSlash_decomp (v : Str) (h : startsWithSlash v = true) :
    '/' :: v.drop 1 = v := by
  unfold startsWithSlash at h
  cases v with
  | nil => simp at h
  | cons c v' =>
    have : c = '/' := by simpa using h
    simp [this]

/-- The slash-placement step always yields the canonical
`base ++ "/" ++ path` form, one slash at the boundary (strictly one when
neither side contributes an extra slash of its own). -/
theorem slashJoin_eq_canonical (u v : Str) :
    slashJoin u v = dropTrailingSlash u ++ '/' :: dropLeadingSlash v := by
  unfold slashJoin dropTrailingSlash dropLeadingSlash
  by_cases hu : endsWithSlash u <;> by_cases hv : startsWithSlash v <;>
    simp only [hu, hv, Bool.not_true, Bool.not_false, Bool.and_self, Bool.and_false,
      Bool.false_and, Bool.true_and, Bool.and_true, if_true, if_false, ite_true, ite_false]
  · rw [← endsWithSlash_decomp u hu]
    simp
  · rw [← endsWithSlash_decomp u hu]
    simp
  · rw [← startsWithSlash_decomp v hv]
    simp
  · rfl

/-- Rule "exact duplicate": when the last segment of the base path equals the
first segment of the inbound path, the duplicate is dropped from the base. -/
theorem joinBasePath_duplicate (basePath path : Str) (seg : Str)
    (hb : (segs basePath).getLast? = some seg)
    (hp : (segs path).head? = some seg) :
    segs (joinBasePath basePath path) = (segs basePath).dropLast ++ segs path := by
  unfold joinBasePath
  simp only [hb, hp, if_pos rfl, if_true]
  rw [segs_slashJoin, segs_rebuildPath]
  intro p hmem
  exact segs_pieces basePath p (List.dropLast_subset _ hmem)

/-- Rule "version conflict": when the two boundary segments differ but both
look like `v<digits>[beta<digits>]`, the base's version is kept and the
inbound path's version segment is dropped. -/
theorem joinBasePath_version (basePath path : Str) (sb sp : Str)
    (hb : (segs basePath).getLast? = some sb)
    (hp : (segs path).head? = some sp)
    (hne : sb ≠ sp)
    (hvb : isVersionSegment sb = true)
    (hvp : isVersionSegment sp = true) :
    segs (joinBasePath basePath path) = segs basePath ++ (segs path).tail := by
  unfold joinBasePath
  simp only [hb, hp, if_neg hne, hvb, hvp, Bool.and_self, if_true]
  rw [segs_slashJoin, segs_rebuildPath]
  intro p hmem
  exact segs_pieces path p (List.tail_subset _ hmem)

/-! ## Glob matching (`fnmatch.fnmatchcase`, used by `_match_model_pattern`) -/

/-- Split a character-class body at its first `']'` (Python's
`pat.find("]", j)` inside `fnmatch.translate`); `none` when the class is
never closed, in which case `'['` is treated as a literal. -/
def findClose : Str → Option (Str × Str)
  | [] => none
  | c :: rest =>
    if c = ']' then some ([], rest)
    else (findClose rest).map (fun pr => (c :: pr.1, pr.2))

/-- Body of a `[...]` class after `'['` and the optional `'!'`: a literal
`']'` is permitted as the first member; the class content runs up to the
closing `']'`.  Returns `(class content, rest of pattern)`, or `none` when
the class is never closed. -/
def parseClassBody : Str → Option (Str × Str)
  | ']' :: t => (findClose t).map (fun pr => (']' :: pr.1, pr.2))
  | p => findClose p

/-- Scan of a `[...]` class after `'['`: optional leading `'!'` (negation),
then the class body.  Returns `(negated, class content, rest of pattern)`. -/
def parseClass : Str → Option (Bool × Str × Str)
  | '!' :: t => (parseClassBody t).map (fun pr => (true, pr.1, pr.2))
  | p => (parseClassBody p).map (fun pr => (false, pr.1, pr.2))

/-- Membership of a character in a class body: `x-y` denotes an inclusive
code-point range (empty when `x > y`); any other character is a literal
member (a `'-'` at the start or end of the body is literal). -/
def classMatch : Str → Char → Bool
  | [], _ => false
  | x :: '-' :: y :: rest, c => (x ≤ c && c ≤ y) || classMatch rest c
  | x :: rest, c => (x = c) || classMatch rest c

/-- `fnmatch.fnmatchcase(name, pat)`, fuel-indexed so that the recursion is
structural (every recursive call shrinks `pat.length + s.length`, so
`globMatch` below always supplies enough fuel and the `0` branch is
unreachable): `*` matches any (possibly empty) run, `?` any single
character, `[...]` a character class with optional `!` negation; an
unclosed `[` is a literal. -/
def globMatchFuel : Nat → Str → Str → Bool
  | 0, _, _ => false
  | fuel + 1, pat, s =>
    match pat with
    | [] => s.isEmpty
    | '*' :: p =>
      globMatchFuel fuel p s ||
        (match s with
         | [] => false
         | _ :: s2 => globMatchFuel fuel ('*' :: p) s2)
    | '?' :: p =>
      (match s with
       | [] => false
       | _ :: s2 => globMatchFuel fuel p s2)
    | '[' :: p =>
      (match parseClass p with
       | none =>
         match s with
         | [] => false
         | d :: s2 => ('[' = d) && globMatchFuel fuel p s2
       | some (neg, content, restPat) =>
         match s with
         | [] => false
         | d :: s2 =>
           (if neg then !classMatch content d else classMatch content d)
             && globMatchFuel fuel restPat s2)
    | c :: p =>
      (match s with
       | [] => false
       | d :: s2 => (c = d) && globMatchFuel fuel p s2)

def globMatch (pat s : Str) : Bool := globMatchFuel (pat.length + s.length + 1) pat s

/-- `_match_model_pattern(model, pattern)` =
`fnmatch.fnmatchcase(model, pattern)` (`src/uniapi/provider_pool.py`). -/
def matchModelPattern (model pattern : Str) : Bool := globMatch pattern model

theorem globMatchFuel_star (fuel : Nat) (s : Str) (h : s.length + 2 ≤ fuel) :
    globMatchFuel fuel ['*'] s = true := by
  induction fuel generalizing s with
  | zero => omega
  | succ n ih =>
    cases s with
    | nil =>
      cases n with
      | zero => omega
      | succ m => simp [globMatchFuel]
    | cons c s2 =>
      have h2 : globMatchFuel n ['*'] s2 = true := ih s2 (by simp at h ⊢; omega)
      simp [globMatchFuel, h2]

/-- The wildcard pattern `"*"` matches every model identifier. -/
theorem matchModelPattern_wildcard (model : Str) :
    matchModelPattern model ['*'] = true := by
  unfold matchModelPattern globMatch
  exact globMatchFuel_star _ model (by simp; omega)

/-! ## Data model (`src/uniapi/config.py`, `src/uniapi/provider_pool.py`)

Wall-clock instants (`datetime`) and durations in seconds are both modelled
as rationals. -/

abbrev Time := ℚ

/-- `ProviderConfig` (`src/uniapi/config.py`). -/
structure ProviderConfig where
  name : String
  base_url : Str
  api_key : String
  priority : Int := 0
  models : Option (List Str) := none
  models_endpoint : Str := "/v1/models".toList
  enabled : Bool := true
deriving DecidableEq

/-- `PreferencesConfig` (`src/uniapi/config.py`); `proxy` is irrelevant to
the verified properties and omitted. -/
structure PreferencesConfig where
  model_timeout : ℚ := 20
  cooldown_period : ℚ := 300
deriving DecidableEq

/-- `AppConfig` (`src/uniapi/config.py`). -/
structure AppConfig where
  api_key : String
  providers : List ProviderConfig := []
  preferences : PreferencesConfig := {}
deriving DecidableEq

/-- `ProviderState` (`src/uniapi/provider_pool.py` lines 19-51). -/
structure ProviderState where
  config : ProviderConfig
  model_patterns : List Str
  cooldown_until : Option Time := none
  last_error : Option String := none
deriving DecidableEq

/-- `ProviderState.is_on_cooldown`. -/
def ProviderState.is_on_cooldown (s : ProviderState) (now : Time) : Bool :=
  match s.cooldown_until with
  | none => false
  | some u => decide (now < u)

/-- `ProviderState.supports_model`. -/
def ProviderState.supports_model (s : ProviderState) (model : Str) : Bool :=
  if s.model_patterns.isEmpty then true
  else s.model_patterns.any (fun pattern => matchModelPattern model pattern)

/-- `ProviderState.begin_cooldown`: the mutation performed when the pool
marks a failure (`datetime.now` is passed explicitly as `now`). -/
def ProviderState.begin_cooldown (s : ProviderState) (preferences : PreferencesConfig)
    (now : Time) (reason : String) : ProviderState :=
  if preferences.cooldown_period ≤ 0 then { s with last_error := some reason }
  else { s with cooldown_until := some (now + preferences.cooldown_period),
                last_error := some reason }

/-- `ProviderState.clear_cooldown`. -/
def ProviderState.clear_cooldown (s : ProviderState) : ProviderState :=
  { s with cooldown_until := none, last_error := none }

/-- `ProviderPool.mark_failure` applied to one state. -/
def mark_failure (preferences : PreferencesConfig) (now : Time)
    (s : ProviderState) (reason : String) : ProviderState :=
  s.begin_cooldown preferences now reason

/-- `ProviderPool.mark_success` applied to one state. -/
def mark_success (s : ProviderState) : ProviderState := s.clear_cooldown

/-! ## Candidate enumeration (`ProviderPool.iter_candidates`, lines 169-187) -/

/-- The `available` list: enabled, not on cooldown, and supporting the
requested model. -/
def availableStates (states : List ProviderState) (now : Time) (model : Str) :
    List ProviderState :=
  states.filter (fun s =>
    s.config.enabled && !s.is_on_cooldown now && s.supports_model model)

/-- `max(state.config.priority for state in available)` (on a non-empty
list; the `[]` case is never reached by `iter_candidates`). -/
def maxPriority : List ProviderState → Int
  | [] => 0
  | s :: rest => rest.foldl (fun acc t => max acc t.config.priority) s.config.priority

/-- The top-priority tier of the available list, in pool order (before the
`random.shuffle`). -/
def topTier (states : List ProviderState) (now : Time) (model : Str) :
    List ProviderState :=
  let available := availableStates states now model
  if available.isEmpty then []
  else available.filter (fun s => s.config.priority = maxPriority available)

/-- `ProviderPool.iter_candidates`: `random.shuffle` is modelled by an
arbitrary reordering function `shuffle` (the theorems assume it permutes
its input). -/
def iter_candidates (shuffle : List ProviderState → List ProviderState)
    (states : List ProviderState) (now : Time) (model : Str) : List ProviderState :=
  let available := availableStates states now model
  if available.isEmpty then []
  else shuffle (available.filter (fun s => s.config.priority = maxPriority available))

/-- `ProviderPool.candidates_for_any` (no model filter). -/
def candidates_for_any (shuffle : List ProviderState → List ProviderState)
    (states : List ProviderState) (now : Time) : List ProviderState :=
  let available :=
    (states.filter (fun s => !s.is_on_cooldown now)).filter (fun s => s.config.enabled)
  if available.isEmpty then []
  else shuffle (available.filter (fun s => s.config.priority = maxPriority available))

theorem le_foldl_max (l : List Int) (init : Int) : init ≤ l.foldl max init := by
  induction l generalizing init with
  | nil => simp
  | cons b more ih => exact le_trans (le_max_left _ _) (ih (max init b))

theorem mem_le_foldl_max (l : List Int) (init x : Int) (h : x ∈ l) :
    x ≤ l.foldl max init := by
  induction l generalizing init with
  | nil => cases h
  | cons b more ih =>
    rcases List.mem_cons.mp h with rfl | h
    · exact le_trans (le_max_right init x) (le_foldl_max more _)
    · exact ih _ h

theorem maxPriority_is_max (l : List ProviderState) (s : ProviderState) (h : s ∈ l) :
    s.config.priority ≤ maxPriority l := by
  cases l with
  | nil => cases h
  | cons a rest =>
    have hfold : maxPriority (a :: rest)
        = (rest.map (fun t => t.config.priority)).foldl max a.config.priority := by
      rw [maxPriority, List.foldl_map]
    rw [hfold]
    rcases List.mem_cons.mp h with rfl | h
    · exact le_foldl_max _ _
    · exact mem_le_foldl_max _ _ _ (List.mem_map_of_mem _ h)

/-- Python `str.lower()`: per-character lowercasing (the structural
equivalent of `String.toLower`, kept kernel-reducible). -/
def lowerStr (s : String) : String := String.mk (s.data.map Char.toLower)

def isPySpace (c : Char) : Bool :=
  c = ' ' || c = '\t' || c = '\n' || c = '\r' || c = '\x0b' || c = '\x0c'

/-- Python `str.strip()` (ASCII whitespace) on a character list. -/
def stripWS (s : Str) : Str :=
  ((s.dropWhile isPySpace).reverse.dropWhile isPySpace).reverse

/-- Python `str.strip()` on a `String`. -/
def pyStrip (s : String) : String := String.mk (stripWS s.data)

/-! ## JSON values

Python's decoded JSON is modelled by `JValue` (numbers as rationals).
`dict.get` returns `None` both for a missing key and for a key bound to
JSON `null`, which is what every call site in the source relies on, so the
lookup maps `null` to `none`. -/

inductive JValue where
  | null
  | bool (b : Bool)
  | num (q : ℚ)
  | str (s : String)
  | arr (items : List JValue)
  | obj (fields : List (String × JValue))

/-- `payload.get(key)` on a decoded JSON object (`null` ↦ `none`). -/
def jGet (fields : List (String × JValue)) (key : String) : Option JValue :=
  match fields.find? (fun kv => kv.1 = key) with
  | some (_, .null) => none
  | some (_, v) => some v
  | none => none

/-! ## Model hydration (`ProviderPool._fetch_models_for_state`, lines 117-167)

The HTTP exchange is external; its result is an `Except`: `.error` covers a
transport error, a non-2xx status (`raise_for_status`) and an undecodable
body, `.ok` carries the decoded JSON payload.  The function returns the
pattern list stored into `state.model_patterns`. -/

def wildcardPatterns : List Str := [['*']]

/-- `payload.get("data") if isinstance(payload, dict) else None`, kept only
when the result `isinstance(data, list)`. -/
def payloadDataEntries : JValue → Option (List JValue)
  | .obj fields =>
    match jGet fields "data" with
    | some (.arr entries) => some entries
    | _ => none
  | _ => none

/-- The id-collection loop: entries that are objects with a non-empty
string `id`. -/
def hydrationIds (entries : List JValue) : List Str :=
  entries.filterMap (fun entry =>
    match entry with
    | .obj fields =>
      match jGet fields "id" with
      | some (.str id) => if id.isEmpty then none else some id.toList
      | _ => none
    | _ => none)

/-- The pattern list `_fetch_models_for_state` assigns to
`state.model_patterns` for a given fetch outcome. -/
def hydratedPatterns (outcome : Except String JValue) : List Str :=
  match outcome with
  | .error _ => wildcardPatterns
  | .ok payload =>
    match payloadDataEntries payload with
    | none => wildcardPatterns
    | some entries =>
      let models := hydrationIds entries
      if models.isEmpty then wildcardPatterns else models

/-! ## Inbound requests and header handling (`src/uniapi/app.py`) -/

/-- One inbound HTTP request as the dispatcher sees it.  `bodyJson` is
`some v` exactly when the raw body is non-empty and decodes as JSON `v`
(FastAPI hands the dispatcher the bytes; `json.loads` is external). -/
structure InboundRequest where
  method : String
  path : Str
  headers : List (String × String)
  queryItems : List (String × String)
  bodyNonempty : Bool
  bodyJson : Option JValue

/-- Case-insensitive header lookup (starlette `Headers.get`). -/
def headerGet (headers : List (String × String)) (key : String) : Option String :=
  (headers.find? (fun kv => lowerStr kv.1 = key)).map (fun kv => kv.2)

/-- `headers.get(key, "")`. -/
def headerGetD (headers : List (String × String)) (key : String) : String :=
  (headerGet headers key).getD ""

/-- Python `sub in s` on strings. -/
def strContains (hay sub : String) : Bool := decide (sub.toList <:+: hay.toList)

/-- `str.partition(" ")`: `(text before the first space, whether a space was
found, text after it)`. -/
def partitionSpace (s : String) : String × Bool × String :=
  let cs := s.toList
  let before := cs.takeWhile (fun c => c ≠ ' ')
  let rest := cs.dropWhile (fun c => c ≠ ' ')
  match rest with
  | ' ' :: after => (⟨before⟩, true, ⟨after⟩)
  | _ => (⟨before⟩, false, "")

/-- `_extract_api_key` (lines 229-239): `x-api-key` wins; otherwise a
`Bearer` token from `Authorization`. -/
def extractApiKey (headers : List (String × String)) : Option String :=
  match headerGet headers "x-api-key" with
  | some v =>
    if v ≠ "" then some v
    else extractAuthorizationToken headers
  | none => extractAuthorizationToken headers
where
  extractAuthorizationToken (headers : List (String × String)) : Option String :=
    match headerGet headers "authorization" with
    | none => none
    | some auth =>
      if auth = "" then none
      else
        let (scheme, _, token) := partitionSpace auth
        if lowerStr scheme = "bearer" && token ≠ "" then some token else none

/-! ### Streaming-intent detection (`_is_streaming_request`, lines 148-194) -/

def TRUTHY_STRINGS : List String := ["1", "true", "yes", "on"]
def FALSY_STRINGS : List String := ["0", "false", "no", "off"]

/-- The query-parameter scan of `_is_streaming_request`: the first
`stream`/`streaming` parameter carrying a recognised literal decides;
unrecognised values are skipped. -/
def queryStreamDecision : List (String × String) → Option Bool
  | [] => none
  | (k, v) :: rest =>
    if lowerStr k = "stream" || lowerStr k = "streaming" then
      if TRUTHY_STRINGS.contains (lowerStr v) then some true
      else if FALSY_STRINGS.contains (lowerStr v) then some false
      else queryStreamDecision rest
    else queryStreamDecision rest

/-- Coercion of a JSON `stream`/`streaming` value (booleans, numbers via
Python truthiness, truthy/falsy strings; anything else is `false`). -/
def coerceStreamValue : Option JValue → Bool
  | some (.bool b) => b
  | some (.num q) => !(q = 0)
  | some (.str s) =>
    if TRUTHY_STRINGS.contains (lowerStr s) then true
    else if FALSY_STRINGS.contains (lowerStr s) then false
    else false
  | _ => false

/-- `_is_streaming_request`: Accept header, then query parameters, then the
JSON body's top-level `stream`/`streaming` field. -/
def isStreamingRequest (r : InboundRequest) : Bool :=
  if strContains (lowerStr (headerGetD r.headers "accept")) "text/event-stream" then
    true
  else
    match queryStreamDecision r.queryItems with
    | some b => b
    | none =>
      if !strContains (lowerStr (headerGetD r.headers "content-type")) "application/json"
          || !r.bodyNonempty then
        false
      else
        match r.bodyJson with
        | some (.obj fields) =>
          coerceStreamValue
            (match jGet fields "stream" with
             | some v => some v
             | none => jGet fields "streaming")
        | _ => false

/-- `_parse_stream_flag` (`src/backend/app/services/gateway_service.py`
lines 295-305): the backend gateway's streaming decision, taken from the
JSON body alone (numbers must equal `1`; recognised truthy strings are
`1|true|yes` after `strip().lower()`). -/
def parseStreamFlag : Option JValue → Bool
  | some (.obj fields) =>
    (match jGet fields "stream" with
     | some (.bool b) => b
     | some (.num q) => q = 1
     | some (.str s) => (["1", "true", "yes"] : List String).contains (lowerStr (pyStrip s))
     | _ => false)
  | _ => false

/-! ### Header sanitization (`src/uniapi/app.py` lines 110-120, 242-300) -/

def HOP_BY_HOP_HEADERS : List String :=
  ["connection", "keep-alive", "proxy-authenticate", "proxy-authorization",
   "te", "trailers", "transfer-encoding", "upgrade", "content-length"]

/-- `_clean_headers`: drop hop-by-hop headers, the known client auth
headers, `host`, and the extra `skip` names. -/
def cleanHeaders (headers : List (String × String)) (skip : List String) :
    List (String × String) :=
  let skipLower :=
    skip.map (fun k => lowerStr k)
      ++ ["authorization", "x-api-key", "x-goog-api-key", "host"]
  headers.filter (fun kv =>
    !HOP_BY_HOP_HEADERS.contains (lowerStr kv.1) && !skipLower.contains (lowerStr kv.1))

/-- `_determine_auth_header` (lines 256-270): header name and value prefix
for the injected upstream credential, mirroring the inbound scheme. -/
def determineAuthHeader (headers : List (String × String)) : String × String :=
  if headerGetD headers "x-goog-api-key" ≠ "" then ("x-goog-api-key", "")
  else if headerGetD headers "x-api-key" ≠ "" then ("x-api-key", "")
  else
    let auth := headerGetD headers "authorization"
    if auth ≠ "" then
      let (scheme, found, _) := partitionSpace auth
      if found then ("Authorization", scheme ++ " ") else ("Authorization", "")
    else ("Authorization", "Bearer ")

/-- The headers sent upstream by each dispatch attempt (lines 504-505 and
530-531): the sanitized inbound headers plus the single injected credential
`f"{auth_value_prefix}{provider.api_key}".strip()`. -/
def upstreamHeaders (headers : List (String × String)) (providerApiKey : String) :
    List (String × String) :=
  let pair := determineAuthHeader headers
  cleanHeaders headers [pair.1] ++ [(pair.1, pyStrip (pair.2 ++ providerApiKey))]

/-- `_apply_response_headers` (lines 296-300): upstream response headers
copied to the downstream response, dropping only `HOP_BY_HOP_HEADERS`. -/
def applyResponseHeaders (source : List (String × String)) : List (String × String) :=
  source.filter (fun kv => !HOP_BY_HOP_HEADERS.contains (lowerStr kv.1))

/-! ### Backend gateway header handling
(`src/backend/app/services/gateway_service.py` lines 25-38, 974-1004) -/

def BACKEND_HOP_BY_HOP_HEADERS : List String :=
  ["connection", "keep-alive", "proxy-authenticate", "proxy-authorization",
   "te", "trailers", "transfer-encoding", "upgrade", "host", "content-length"]

def AUTH_HEADERS : List String := ["authorization", "x-api-key", "x-goog-api-key"]

/-- `_filtered_headers`. -/
def filteredHeaders (headers : List (String × String)) : List (String × String) :=
  headers.filter (fun kv =>
    !BACKEND_HOP_BY_HOP_HEADERS.contains (lowerStr kv.1)
      && !AUTH_HEADERS.contains (lowerStr kv.1))

/-- `_provider_auth_headers`: auth headers chosen by the provider's type. -/
def providerAuthHeaders (providerType : String) (apiKey : String) :
    List (String × String) :=
  if providerType = "anthropic" then
    [("Authorization", "Bearer " ++ apiKey), ("x-api-key", apiKey),
     ("anthropic-version", "2023-06-01")]
  else if providerType = "gemini" then
    [("x-goog-api-key", apiKey)]
  else
    [("Authorization", "Bearer " ++ apiKey)]

/-- Python `dict.update`: later entries replace same-keyed earlier ones. -/
def dictUpdate (base extra : List (String × String)) : List (String × String) :=
  base.filter (fun kv => !extra.any (fun e => e.1 = kv.1)) ++ extra

/-- The headers the backend gateway forwards upstream (lines 651-652):
`_filtered_headers(headers)` updated with `_provider_auth_headers(provider)`. -/
def backendForwardHeaders (headers : List (String × String))
    (providerType apiKey : String) : List (String × String) :=
  dictUpdate (filteredHeaders headers) (providerAuthHeaders providerType apiKey)

/-- `_response_headers` (lines 997-1004): the backend drops its hop-by-hop
set and additionally `content-encoding`. -/
def backendResponseHeaders (headers : List (String × String)) :
    List (String × String) :=
  headers.filter (fun kv =>
    !BACKEND_HOP_BY_HOP_HEADERS.contains (lowerStr kv.1)
      && !(lowerStr kv.1 = "content-encoding"))

/-! ### Backend status classification (`_classify_status_error`, lines 83-109) -/

structure ErrorDecision where
  status_code : Nat
  error_body : String
  retryable : Bool
  freeze : Bool
  allow_passthrough : Bool
  response_headers : Option (List (String × String)) := none
  media_type : Option String := none
deriving DecidableEq

/-- `_classify_status_error`: every 4xx (429 included) is a non-retryable,
non-freezing passthrough; everything else reaching it is retryable. -/
def classifyStatusError (status_code : Nat) (body : Option String)
    (response_headers : Option (List (String × String)))
    (media_type : Option String) : ErrorDecision :=
  let error_body := body.getD ""
  if 400 ≤ status_code ∧ status_code < 500 then
    { status_code := status_code, error_body := error_body, retryable := false,
      freeze := false, allow_passthrough := true,
      response_headers := response_headers, media_type := media_type }
  else
    { status_code := status_code, error_body := error_body, retryable := true,
      freeze := true, allow_passthrough := true,
      response_headers := response_headers, media_type := media_type }

/-! ## The dispatch loop (`ProxyEngine.dispatch`, `src/uniapi/app.py`
lines 475-613)

The network is an oracle `outcome : ProviderState → AttemptOutcome`: a
transport error (`httpx.RequestError`, reason string as logged) or an
upstream response.  Whether a 2xx response is streamed or buffered does not
change what the caller sees at this level (status, sanitized headers, body
bytes), so both success paths share one constructor.  `marks` records the
`mark_failure` / `mark_success` calls issued to the pool, in order. -/

structure UpstreamResponse where
  status : Nat
  headers : List (String × String)
  body : List Nat
deriving DecidableEq

inductive AttemptOutcome where
  | transportError (reason : String)
  | response (resp : UpstreamResponse)

structure DownstreamResponse where
  status : Nat
  headers : List (String × String)
  body : List Nat
deriving DecidableEq

/-- `ProxyEngine._build_response` (and the header part of
`_build_streaming_response`): status and body verbatim, headers through
`_apply_response_headers`. -/
def buildResponse (origin : UpstreamResponse) : DownstreamResponse :=
  { status := origin.status, headers := applyResponseHeaders origin.headers,
    body := origin.body }

inductive DispatchResult where
  | upstream (origin : UpstreamResponse)
  | synthesized (status : Nat) (detail : String)
deriving DecidableEq

inductive MarkEvent where
  | failure (provider : String) (reason : String)
  | success (provider : String)
deriving DecidableEq

structure LoopOut where
  result : DispatchResult
  attempted : List String
  marks : List MarkEvent
deriving DecidableEq

def joinFailures (failures : List String) : String := String.intercalate "; " failures

/-- The candidate loop of `ProxyEngine.dispatch` from the `try:` of the
loop body onward (lines 541-607): send, classify, fail over; the
accumulated failure strings are an explicit argument.  The loop body's
pre-`try` prologue — in particular the `state.get_provider_model(model)`
call of line 533 — is modelled separately by `getProviderModelCall` and
sequenced before this loop in `dispatch`, because on the staged
`ProviderState` that attribute lookup raises and the loop never runs for a
truthy model. -/
def dispatchLoop (outcome : ProviderState → AttemptOutcome) :
    List ProviderState → List String → LoopOut
  | [], failures =>
    ⟨.synthesized 502
      (if failures.isEmpty then "All providers failed" else joinFailures failures),
     [], []⟩
  | s :: rest, failures =>
    let name := s.config.name
    match outcome s with
    | .transportError reason =>
      let o := dispatchLoop outcome rest (failures ++ [name ++ ": " ++ reason])
      ⟨o.result, name :: o.attempted, .failure name reason :: o.marks⟩
    | .response resp =>
      if 500 ≤ resp.status || resp.status = 429 then
        let reason := "HTTP " ++ toString resp.status
        let o := dispatchLoop outcome rest (failures ++ [name ++ ": " ++ reason])
        ⟨o.result, name :: o.attempted, .failure name reason :: o.marks⟩
      else if 400 ≤ resp.status then
        ⟨.upstream resp, [name], []⟩
      else
        ⟨.upstream resp, [name], [.success name]⟩

/-- Python truthiness of the optional model string (`if model`). -/
def optionTruthy : Option Str → Bool
  | some m => !m.isEmpty
  | none => false

/-- The 503 detail (lines 489-491). -/
def noProvidersMessage (model : Option Str) : String :=
  if optionTruthy model then
    "No providers available for model '" ++ String.mk (model.getD []) ++ "'"
  else "No providers available"

/-- Result of running a piece of the Python program: a value, or an
uncaught exception escaping it. -/
inductive PyOutcome (α : Type) where
  | ok (value : α)
  | uncaught (exception : String)
deriving DecidableEq

/-- The attributes the staged `ProviderState` actually defines
(`src/uniapi/provider_pool.py` lines 19-51): the four dataclass fields and
its four methods.  `get_provider_model` is not among them. -/
def providerStateAttributes : List String :=
  ["config", "model_patterns", "cooldown_until", "last_error",
   "is_on_cooldown", "supports_model", "begin_cooldown", "clear_cooldown"]

/-- `provider_model = state.get_provider_model(model) if model else None`
(`src/uniapi/app.py` line 533), evaluated in the loop body *before* its
`try:`: for a truthy model this is a Python attribute lookup on
`ProviderState`, which raises `AttributeError` because the staged class
defines no `get_provider_model` (the `.ok` branch under the membership test
is unreachable). -/
def getProviderModelCall (model : Option Str) : PyOutcome (Option Str) :=
  if optionTruthy model then
    if providerStateAttributes.contains "get_provider_model" then
      .ok (some (model.getD []))
    else
      .uncaught
        "AttributeError: 'ProviderState' object has no attribute 'get_provider_model'"
  else .ok none

/-- `ProxyEngine.dispatch`: candidate enumeration, the 503 guard, then the
candidate loop.  The first loop iteration evaluates the
`get_provider_model` prologue before any upstream request; when that lookup
raises, the exception escapes `dispatch` uncaught.  Only when the prologue
survives (a falsy model) does the classification loop run. -/
def dispatch (shuffle : List ProviderState → List ProviderState)
    (states : List ProviderState) (now : Time)
    (outcome : ProviderState → AttemptOutcome) (model : Option Str) :
    PyOutcome LoopOut :=
  let candidates :=
    if optionTruthy model then iter_candidates shuffle states now (model.getD [])
    else candidates_for_any shuffle states now
  if candidates.isEmpty then .ok ⟨.synthesized 503 (noProvidersMessage model), [], []⟩
  else
    match getProviderModelCall model with
    | .uncaught exc => .uncaught exc
    | .ok _ => .ok (dispatchLoop outcome candidates [])

/-! ## The full proxy pipeline (`create_app` in `src/uniapi/app.py`):
the `_enforce_api_key` middleware (lines 662-677) followed by
`universal_proxy` (lines 962-974), for paths outside the admin namespace. -/

/-- `_extract_model_from_body` (lines 127-145). -/
def extractModelFromBody (r : InboundRequest) :
    Option String × Option (List (String × JValue)) :=
  if !strContains (lowerStr (headerGetD r.headers "content-type")) "application/json" then
    (none, none)
  else if !r.bodyNonempty then (none, none)
  else
    match r.bodyJson with
    | some (.obj fields) =>
      (match jGet fields "model" with
       | some (.str m) => (some m, some fields)
       | _ => (none, some fields))
    | _ => (none, none)

/-- starlette `QueryParams.get`: last occurrence of the (case-sensitive) key. -/
def queryParamGet (items : List (String × String)) (key : String) : Option String :=
  ((items.filter (fun kv => kv.1 = key)).map (fun kv => kv.2)).getLast?

/-- `model = model_from_body or request.query_params.get("model")`
(line 966; `or` falls through on the falsy empty string). -/
def requestedModel (r : InboundRequest) : Option String :=
  match (extractModelFromBody r).1 with
  | some m => if m = "" then queryParamGet r.queryItems "model" else some m
  | none => queryParamGet r.queryItems "model"

/-- `ProviderConfig.normalized_models_endpoint` (`src/uniapi/config.py`). -/
def normalizedModelsEndpoint (e : Str) : Str :=
  let endpoint := if e.isEmpty then "/v1/models".toList else stripWS e
  if startsWithSlash endpoint then endpoint else '/' :: endpoint

/-- `ProxyEngine.is_model_listing_path` over
`self._model_listing_paths` (lines 317, 413-415). -/
def isModelListingPath (providers : List ProviderConfig) (path : Str) : Bool :=
  let normalized := if startsWithSlash path then path else '/' :: path
  (providers.map (fun p => normalizedModelsEndpoint p.models_endpoint)).contains
    normalized

/-- The full pipeline: global API-key middleware, model extraction and the
400 guard of `universal_proxy`, then `ProxyEngine.dispatch`.  Neither
`universal_proxy` nor the middleware catches exceptions, so an exception
raised inside `dispatch` escapes the whole pipeline (FastAPI's fallback
turns it into a framework 500, outside this program). -/
def handleRequest (cfg : AppConfig) (states : List ProviderState) (now : Time)
    (shuffle : List ProviderState → List ProviderState)
    (outcome : ProviderState → AttemptOutcome) (r : InboundRequest) :
    PyOutcome LoopOut :=
  if cfg.api_key ≠ "" && !(extractApiKey r.headers = some cfg.api_key) then
    .ok ⟨.synthesized 401 "Invalid or missing API key", [], []⟩
  else
    match requestedModel r with
    | none =>
      if isModelListingPath cfg.providers r.path then
        dispatch shuffle states now outcome none
      else .ok ⟨.synthesized 400 "Request must include a model field", [], []⟩
    | some m => dispatch shuffle states now outcome (some m.toList)

/-! ## Supporting lemmas -/

/-- Classification used in the loop: outcomes that trigger cooldown and
failover (transport errors, status ≥ 500 or = 429). -/
def outcomeRetryable : AttemptOutcome → Bool
  | .transportError _ => true
  | .response resp => 500 ≤ resp.status || resp.status = 429

/-- The failure string `f"{provider.name}: {reason}"` recorded for a failed
attempt. -/
def attemptFailureString (s : ProviderState) : AttemptOutcome → String
  | .transportError reason => s.config.name ++ ": " ++ reason
  | .response resp => s.config.name ++ ": " ++ ("HTTP " ++ toString resp.status)

theorem dispatchLoop_result_shape (outcome : ProviderState → AttemptOutcome)
    (cands : List ProviderState) (failures : List String) :
    (∃ origin, (dispatchLoop outcome cands failures).result = .upstream origin) ∨
    (∃ detail, (dispatchLoop outcome cands failures).result = .synthesized 502 detail) := by
  induction cands generalizing failures with
  | nil => exact Or.inr ⟨_, rfl⟩
  | cons s rest ih =>
    rw [dispatchLoop]
    cases outcome s with
    | transportError reason => exact ih _
    | response resp =>
      by_cases h5 : (500 ≤ resp.status || resp.status = 429) = true
      · simpa [h5] using ih _
      · by_cases h4 : (400 ≤ resp.status)
        · simp only [h5, Bool.false_eq_true, if_false, if_pos h4]
          exact Or.inl ⟨resp, rfl⟩
        · simp only [h5, Bool.false_eq_true, if_false, if_neg h4]
          exact Or.inl ⟨resp, rfl⟩

theorem dispatchLoop_attempted_prefix (outcome : ProviderState → AttemptOutcome)
    (cands : List ProviderState) (failures : List String) :
    (dispatchLoop outcome cands failures).attempted
      <+: cands.map (fun s => s.config.name) := by
  induction cands generalizing failures with
  | nil => simp [dispatchLoop]
  | cons s rest ih =>
    rw [dispatchLoop, List.map_cons]
    cases outcome s with
    | transportError reason =>
      exact (List.cons_prefix_cons).mpr ⟨rfl, ih _⟩
    | response resp =>
      by_cases h5 : (500 ≤ resp.status || resp.status = 429) = true
      · simp only [h5, if_true]
        exact (List.cons_prefix_cons).mpr ⟨rfl, ih _⟩
      · by_cases h4 : (400 ≤ resp.status)
        · simp only [h5, Bool.false_eq_true, if_false, if_pos h4]
          exact (List.cons_prefix_cons).mpr ⟨rfl, List.nil_prefix⟩
        · simp only [h5, Bool.false_eq_true, if_false, if_neg h4]
          exact (List.cons_prefix_cons).mpr ⟨rfl, List.nil_prefix⟩

theorem dispatchLoop_all_retryable (outcome : ProviderState → AttemptOutcome)
    (cands : List ProviderState) (failures : List String)
    (h : ∀ s ∈ cands, outcomeRetryable (outcome s) = true)
    (hne : failures ≠ [] ∨ cands ≠ []) :
    (dispatchLoop outcome cands failures).result = .synthesized 502
      (joinFailures
        (failures ++ cands.map (fun s => attemptFailureString s (outcome s)))) := by
  induction cands generalizing failures with
  | nil =>
    rcases hne with hne | hne
    · simp [dispatchLoop, List.isEmpty_iff, hne]
    · exact absurd rfl hne
  | cons s rest ih =>
    rw [dispatchLoop]
    have hs := h s (List.mem_cons_self _ _)
    have hrest : ∀ s ∈ rest, outcomeRetryable (outcome s) = true := fun t ht =>
      h t (List.mem_cons_of_mem _ ht)
    cases houtcome : outcome s with
    | transportError reason =>
      have := ih (failures ++ [s.config.name ++ ": " ++ reason]) hrest
        (Or.inl (by simp))
      simp only [this, List.map_cons, houtcome, attemptFailureString]
      simp
    | response resp =>
      rw [houtcome] at hs
      rw [outcomeRetryable] at hs
      simp only [hs, if_true]
      have := ih (failures ++ [s.config.name ++ ": " ++ ("HTTP " ++ toString resp.status)])
        hrest (Or.inl (by simp))
      simp only [this, List.map_cons, houtcome, attemptFailureString]
      simp

theorem foldl_max_attained (l : List Int) (init : Int) :
    l.foldl max init = init ∨ l.foldl max init ∈ l := by
  induction l generalizing init with
  | nil => exact Or.inl rfl
  | cons b more ih =>
    rw [List.foldl_cons]
    rcases ih (max init b) with h | h
    · rw [h]
      rcases max_choice init b with h2 | h2
      · exact Or.inl h2
      · exact Or.inr (by rw [h2]; exact List.mem_cons_self _ _)
    · exact Or.inr (List.mem_cons_of_mem _ h)

theorem maxPriority_attained (l : List ProviderState) (hne : l ≠ []) :
    ∃ s ∈ l, s.config.priority = maxPriority l := by
  cases l with
  | nil => exact absurd rfl hne
  | cons a rest =>
    have hfold : maxPriority (a :: rest)
        = (rest.map (fun t => t.config.priority)).foldl max a.config.priority := by
      rw [maxPriority, List.foldl_map]
    rcases foldl_max_attained (rest.map (fun t => t.config.priority))
        a.config.priority with h | h
    · exact ⟨a, List.mem_cons_self _ _, by rw [hfold, h]⟩
    · obtain ⟨s, hs, hpr⟩ := List.mem_map.mp h
      exact ⟨s, List.mem_cons_of_mem _ hs, by rw [hfold, hpr]⟩

theorem mem_availableStates_iff (states : List ProviderState) (now : Time)
    (model : Str) (s : ProviderState) :
    s ∈ availableStates states now model ↔
      s ∈ states ∧ s.config.enabled = true ∧ s.is_on_cooldown now = false
        ∧ s.supports_model model = true := by
  unfold availableStates
  rw [List.mem_filter]
  constructor
  · rintro ⟨hmem, hcond⟩
    simp only [Bool.and_eq_true, Bool.not_eq_true'] at hcond
    exact ⟨hmem, hcond.1.1, hcond.1.2, hcond.2⟩
  · rintro ⟨hmem, h1, h2, h3⟩
    exact ⟨hmem, by simp [h1, h2, h3]⟩

theorem mem_topTier_iff (states : List ProviderState) (now : Time) (model : Str)
    (s : ProviderState) :
    s ∈ topTier states now model ↔
      s ∈ availableStates states now model
        ∧ s.config.priority = maxPriority (availableStates states now model) := by
  unfold topTier
  by_cases hempty : (availableStates states now model).isEmpty = true
  · rw [if_pos hempty]
    constructor
    · intro h; cases h
    · rintro ⟨hmem, -⟩
      rw [List.isEmpty_iff] at hempty
      rw [hempty] at hmem
      cases hmem
  · rw [if_neg hempty]
    rw [List.mem_filter]
    constructor
    · rintro ⟨hmem, hcond⟩
      exact ⟨hmem, by simpa using hcond⟩
    · rintro ⟨hmem, hcond⟩
      exact ⟨hmem, by simpa using hcond⟩

theorem iter_candidates_perm_topTier
    (shuffle : List ProviderState → List ProviderState)
    (hShuffle : ∀ l, List.Perm (shuffle l) l)
    (states : List ProviderState) (now : Time) (model : Str) :
    List.Perm (iter_candidates shuffle states now model) (topTier states now model) := by
  unfold iter_candidates topTier
  by_cases hempty : (availableStates states now model).isEmpty
  · simp [hempty]
  · simp only [hempty, if_false]
    exact hShuffle _

theorem mem_iter_candidates_iff
    (shuffle : List ProviderState → List ProviderState)
    (hShuffle : ∀ l, List.Perm (shuffle l) l)
    (states : List ProviderState) (now : Time) (model : Str) (s : ProviderState) :
    s ∈ iter_candidates shuffle states now model ↔
      s ∈ availableStates states now model
        ∧ s.config.priority = maxPriority (availableStates states now model) := by
  rw [(iter_candidates_perm_topTier shuffle hShuffle states now model).mem_iff]
  exact mem_topTier_iff states now model s

theorem topTier_ne_nil (states : List ProviderState) (now : Time) (model : Str)
    (hne : availableStates states now model ≠ []) :
    topTier states now model ≠ [] := by
  obtain ⟨s, hs, hpr⟩ := maxPriority_attained _ hne
  intro h
  have : s ∈ topTier states now model := (mem_topTier_iff _ _ _ _).mpr ⟨hs, hpr⟩
  rw [h] at this
  cases this

/-! ## The claims -/

/-- **C10 (code bug).** The 503 half of the claim is faithful to the code:
empty candidate enumeration yields the synthesized 503 (first conjunct).
The 502-exhaustion half states the spec's clear intent, but in the staged
code it is unreachable for model-bearing requests: the `get_provider_model`
attribute lookup of `src/uniapi/app.py` line 533 raises `AttributeError`
at the first candidate, before any attempt, so no joined failure detail
and no 502 is ever produced — a model-bearing dispatch whose only provider
would answer HTTP 500 crashes instead of synthesizing `502 "P: HTTP 500"`
(second conjunct).  Exhaustion behaves as claimed exactly on the paths
that skip the prologue, i.e. dispatches without a truthy model (third
conjunct). -/
theorem exhaustion_502_unreachable_for_model_requests :
    dispatch id [] 0 (fun _ => .response ⟨500, [], []⟩) (some "gpt-4".toList)
      = .ok ⟨.synthesized 503 "No providers available for model 'gpt-4'", [], []⟩
    ∧ dispatch id
        [⟨{ name := "P", base_url := [], api_key := "k" }, [['*']], none, none⟩] 0
        (fun _ => .response ⟨500, [], []⟩) (some "gpt-4".toList)
      = .uncaught
          "AttributeError: 'ProviderState' object has no attribute 'get_provider_model'"
    ∧ dispatch id
        [⟨{ name := "P", base_url := [], api_key := "k" }, [['*']], none, none⟩] 0
        (fun _ => .response ⟨500, [], []⟩) none
      = .ok ⟨.synthesized 502 (joinFailures ["P: HTTP 500"]), ["P"],
             [.failure "P" "HTTP 500"]⟩ := by
  refine ⟨by decide, by decide, by decide⟩

/-- **C2 counterexample.** The claim says a 429 response is classified
retryable.  The backend gateway's `_classify_status_error` — one of the two
classification sites the claim covers — puts 429 in the 4xx branch:
non-retryable and non-freezing, so it is returned to the caller and the
provider is not frozen. -/
theorem classify_429_not_retryable :
    (classifyStatusError 429 (some "slow down") none none).retryable = false
      ∧ (classifyStatusError 429 (some "slow down") none none).freeze = false := by
  decide

/-- **C2 (amended).** In `ProxyEngine.dispatch` (uniapi variant): a status
≥ 500 or exactly 429 marks the provider failed and the loop moves to the
next candidate; a status in [400, 500) other than 429 is returned verbatim
(same status and body), triggers no cooldown mark, and ends the loop.  In
the backend gateway's `_classify_status_error`, a status ≥ 500 is retryable
and freezing, while every 4xx — 429 included — is a non-retryable,
non-freezing passthrough of the upstream status and body. -/
theorem status_error_classification
    (outcome : ProviderState → AttemptOutcome) (s : ProviderState)
    (rest : List ProviderState) (failures : List String) (resp : UpstreamResponse)
    (houtcome : outcome s = .response resp) :
    ((500 ≤ resp.status ∨ resp.status = 429) →
      dispatchLoop outcome (s :: rest) failures =
        ⟨(dispatchLoop outcome rest
            (failures ++ [s.config.name ++ ": " ++ ("HTTP " ++ toString resp.status)])).result,
         s.config.name :: (dispatchLoop outcome rest
            (failures ++ [s.config.name ++ ": " ++ ("HTTP " ++ toString resp.status)])).attempted,
         .failure s.config.name ("HTTP " ++ toString resp.status)
           :: (dispatchLoop outcome rest
            (failures ++ [s.config.name ++ ": " ++ ("HTTP " ++ toString resp.status)])).marks⟩)
    ∧ (400 ≤ resp.status → resp.status < 500 → resp.status ≠ 429 →
        dispatchLoop outcome (s :: rest) failures = ⟨.upstream resp, [s.config.name], []⟩
          ∧ (buildResponse resp).status = resp.status
          ∧ (buildResponse resp).body = resp.body)
    ∧ (∀ (st : Nat) (body : Option String) rh mt, 500 ≤ st →
        (classifyStatusError st body rh mt).retryable = true
          ∧ (classifyStatusError st body rh mt).freeze = true)
    ∧ (∀ (st : Nat) (body : Option String) rh mt, 400 ≤ st → st < 500 →
        (classifyStatusError st body rh mt).retryable = false
          ∧ (classifyStatusError st body rh mt).freeze = false
          ∧ (classifyStatusError st body rh mt).status_code = st
          ∧ (classifyStatusError st body rh mt).error_body = body.getD ""
          ∧ (classifyStatusError st body rh mt).allow_passthrough = true) := by
  refine ⟨?_, ?_, ?_, ?_⟩
  · intro h
    have hcond : (500 ≤ resp.status || resp.status = 429) = true := by
      rcases h with h | h <;> simp [h]
    simp [dispatchLoop, houtcome, hcond]
  · intro h4 h5 h429
    have hcond : (500 ≤ resp.status || resp.status = 429) = false := by
      simp only [Bool.or_eq_false_iff, decide_eq_false_iff_not]
      omega
    refine ⟨?_, rfl, rfl⟩
    simp [dispatchLoop, houtcome, hcond, h4]
  · intro st body rh mt h5
    have : ¬(400 ≤ st ∧ st < 500) := by omega
    simp [classifyStatusError, this]
  · intro st body rh mt h4 h5
    have : 400 ≤ st ∧ st < 500 := ⟨h4, h5⟩
    simp [classifyStatusError, this]

/-- C2 witness: a single-provider loop observing an upstream 404 returns it
verbatim and marks nothing; observing a 500 records a failure mark for that
provider. -/
theorem status_error_classification_witness :
    (dispatchLoop (fun _ => .response ⟨404, [("content-type", "application/json")], [123]⟩)
        [⟨{ name := "P", base_url := [], api_key := "k" }, [['*']], none, none⟩] []
      = ⟨.upstream ⟨404, [("content-type", "application/json")], [123]⟩, ["P"], []⟩)
    ∧ (classifyStatusError 503 none none none).retryable = true := by
  constructor
  · exact ((status_error_classification
      (fun _ => .response ⟨404, [("content-type", "application/json")], [123]⟩)
      ⟨{ name := "P", base_url := [], api_key := "k" }, [['*']], none, none⟩
      [] [] ⟨404, [("content-type", "application/json")], [123]⟩ rfl).2.1
      (by decide) (by decide) (by decide)).1
  · exact ((status_error_classification
      (fun _ => .response ⟨404, [("content-type", "application/json")], [123]⟩)
      ⟨{ name := "P", base_url := [], api_key := "k" }, [['*']], none, none⟩
      [] [] ⟨404, [("content-type", "application/json")], [123]⟩ rfl).2.2.1
      503 none none none (by decide)).1

/-- **C3.** Every provider contacted during a request belongs to the
top-priority tier of the providers eligible at enumeration time; the
candidate list is a permutation of that tier (so no lower-priority provider
is ever contacted, even when every candidate fails); the attempted sequence
is a prefix of the candidate list; and, with distinct provider names, each
provider is attempted at most once. -/
theorem priority_tier_and_failover
    (shuffle : List ProviderState → List ProviderState)
    (hShuffle : ∀ l, List.Perm (shuffle l) l)
    (states : List ProviderState) (now : Time) (model : Str)
    (outcome : ProviderState → AttemptOutcome)
    (hNodup : (states.map (fun s => s.config.name)).Nodup) :
    let cands := iter_candidates shuffle states now model
    let out := dispatchLoop outcome cands []
    List.Perm cands (topTier states now model)
    ∧ out.attempted <+: cands.map (fun s => s.config.name)
    ∧ (∀ n ∈ out.attempted, ∃ s, s ∈ availableStates states now model
        ∧ s.config.name = n
        ∧ s.config.priority = maxPriority (availableStates states now model))
    ∧ out.attempted.Nodup := by
  intro cands out
  have hperm := iter_candidates_perm_topTier shuffle hShuffle states now model
  have hpre := dispatchLoop_attempted_prefix outcome cands []
  refine ⟨hperm, hpre, ?_, ?_⟩
  · intro n hn
    have hmemmap : n ∈ cands.map (fun s => s.config.name) := hpre.subset hn
    obtain ⟨s, hs, rfl⟩ := List.mem_map.mp hmemmap
    have hst : s ∈ topTier states now model := hperm.mem_iff.mp hs
    obtain ⟨havail, hmax⟩ := (mem_topTier_iff _ _ _ _).mp hst
    exact ⟨s, havail, rfl, hmax⟩
  · have havail_sub : List.Sublist (availableStates states now model) states := by
      unfold availableStates
      exact List.filter_sublist _
    have htop_sub : List.Sublist (topTier states now model) states := by
      unfold topTier
      by_cases hempty : (availableStates states now model).isEmpty = true
      · rw [if_pos hempty]
        exact List.nil_sublist states
      · rw [if_neg hempty]
        exact (List.filter_sublist _).trans havail_sub
    have hnames : ((topTier states now model).map (fun s => s.config.name)).Nodup :=
      hNodup.sublist (htop_sub.map _)
    have hcands : (cands.map (fun s => s.config.name)).Nodup :=
      ((hperm.map _).nodup_iff).mpr hnames
    exact hcands.sublist hpre.sublist

/-- C3 witness: two providers at priorities 1 and 0, both failing with 500;
the candidate list is exactly the priority-1 tier, the attempted sequence is
a prefix of it, and no name repeats. -/
theorem priority_tier_and_failover_witness :
    (dispatchLoop (fun _ => .response ⟨500, [], []⟩)
        (iter_candidates id
          [⟨{ name := "A", base_url := [], api_key := "a", priority := 1 }, [['*']], none, none⟩,
           ⟨{ name := "B", base_url := [], api_key := "b", priority := 0 }, [['*']], none, none⟩]
          0 ['m']) []).attempted.Nodup := by
  exact (priority_tier_and_failover id (fun l => List.Perm.refl l)
    [⟨{ name := "A", base_url := [], api_key := "a", priority := 1 }, [['*']], none, none⟩,
     ⟨{ name := "B", base_url := [], api_key := "b", priority := 0 }, [['*']], none, none⟩]
    0 ['m'] (fun _ => .response ⟨500, [], []⟩) (by decide)).2.2.2

/-- Past-cooldown, enabled, model-matching provider used by the C4
counterexample: it failed at time 0 with a 5-second cooldown. -/
def cexProviderB : ProviderState :=
  { config := { name := "B", base_url := [], api_key := "kb", priority := 0 },
    model_patterns := [['*']], cooldown_until := some 5 }

/-- Healthy higher-priority provider used by the C4 counterexample. -/
def cexProviderA : ProviderState :=
  { config := { name := "A", base_url := [], api_key := "ka", priority := 1 },
    model_patterns := [['*']] }

/-- **C4 counterexample.** The claim says that once `t ≥ fail_time +
cooldown_period` the state is in `iter_candidates` again *exactly when* it
is enabled and supports the model.  At `t = 6` provider `B` (cooldown ended
at 5, enabled, matches every model) still is not a candidate, because a
higher-priority provider `A` is eligible and `iter_candidates` keeps only
the top-priority tier. -/
theorem cooldown_recovery_requires_top_priority :
    cexProviderB.is_on_cooldown 6 = false
      ∧ cexProviderB.config.enabled = true
      ∧ cexProviderB.supports_model ['m'] = true
      ∧ cexProviderB ∉ iter_candidates id [cexProviderA, cexProviderB] 6 ['m'] := by
  decide

/-- **C4 (amended).** A provider marked failed at `fail_time` with
`cooldown_period > 0` carries `cooldown_until = fail_time + cooldown_period`
and the failure reason; at every `t < fail_time + cooldown_period` it is on
cooldown and excluded from `iter_candidates` for every pool and model; at
every `t ≥ fail_time + cooldown_period` it is off cooldown with no explicit
recovery event — it is then in the *eligible* set exactly when enabled and
model-matching, and in the `iter_candidates` result exactly when it
moreover sits at the maximal priority of the eligible set.  A dispatch
success (`mark_success`) clears `cooldown_until` and `last_error`. -/
theorem cooldown_state_machine
    (preferences : PreferencesConfig) (s0 : ProviderState) (failTime : Time)
    (reason : String) (hperiod : 0 < preferences.cooldown_period)
    (shuffle : List ProviderState → List ProviderState)
    (hShuffle : ∀ l, List.Perm (shuffle l) l) :
    let s := mark_failure preferences failTime s0 reason
    (s.cooldown_until = some (failTime + preferences.cooldown_period)
      ∧ s.last_error = some reason)
    ∧ (∀ t : Time, t < failTime + preferences.cooldown_period →
        s.is_on_cooldown t = true
          ∧ ∀ states model, s ∉ iter_candidates shuffle states t model)
    ∧ (∀ t : Time, failTime + preferences.cooldown_period ≤ t →
        s.is_on_cooldown t = false
          ∧ ∀ states model,
            (s ∈ availableStates states t model ↔
              s ∈ states ∧ s.config.enabled = true ∧ s.supports_model model = true)
            ∧ (s ∈ iter_candidates shuffle states t model ↔
                s ∈ availableStates states t model
                  ∧ s.config.priority = maxPriority (availableStates states t model)))
    ∧ ((mark_success s).cooldown_until = none ∧ (mark_success s).last_error = none) := by
  have hnotle : ¬preferences.cooldown_period ≤ 0 := not_le.mpr hperiod
  intro s
  have hs : s = { s0 with
      cooldown_until := some (failTime + preferences.cooldown_period),
      last_error := some reason } := by
    show ProviderState.begin_cooldown s0 preferences failTime reason = _
    rw [ProviderState.begin_cooldown, if_neg hnotle]
  refine ⟨⟨by rw [hs], by rw [hs]⟩, ?_, ?_, by simp [mark_success, ProviderState.clear_cooldown],
    by simp [mark_success, ProviderState.clear_cooldown]⟩
  · intro t ht
    have hcool : s.is_on_cooldown t = true := by
      rw [hs, ProviderState.is_on_cooldown]
      simpa using ht
    refine ⟨hcool, ?_⟩
    intro states model hmem
    have := ((mem_iter_candidates_iff shuffle hShuffle states t model s).mp hmem).1
    have havail := (mem_availableStates_iff states t model s).mp this
    rw [hcool] at havail
    exact absurd havail.2.2.1 (by simp)
  · intro t ht
    have hcool : s.is_on_cooldown t = false := by
      rw [hs, ProviderState.is_on_cooldown]
      simpa using not_lt.mpr ht
    refine ⟨hcool, ?_⟩
    intro states model
    constructor
    · rw [mem_availableStates_iff, hcool]
      constructor
      · rintro ⟨h1, h2, -, h3⟩
        exact ⟨h1, h2, h3⟩
      · rintro ⟨h1, h2, h3⟩
        exact ⟨h1, h2, rfl, h3⟩
    · exact mem_iter_candidates_iff shuffle hShuffle states t model s

/-- C4 witness: with a 300-second cooldown started at time 0, the marked
provider is on cooldown at `t = 100` and off cooldown at `t = 300`; a
success clears the cooldown timestamp. -/
theorem cooldown_state_machine_witness :
    (mark_failure { model_timeout := 20, cooldown_period := 300 } 0
        cexProviderA "HTTP 500").is_on_cooldown 100 = true
      ∧ (mark_failure { model_timeout := 20, cooldown_period := 300 } 0
          cexProviderA "HTTP 500").is_on_cooldown 300 = false
      ∧ (mark_success (mark_failure { model_timeout := 20, cooldown_period := 300 } 0
          cexProviderA "HTTP 500")).cooldown_until = none := by
  have h := cooldown_state_machine { model_timeout := 20, cooldown_period := 300 }
    cexProviderA 0 "HTTP 500" (by norm_num) id (fun l => List.Perm.refl l)
  exact ⟨(h.2.1 100 (by norm_num)).1, (h.2.2.1 300 (by norm_num)).1, h.2.2.2.1⟩

/-- **C5 counterexample.** The claim says a provider whose `model_patterns`
is empty (hydration still pending) matches *no* requested model.
`ProviderState.supports_model` does the opposite: an empty pattern list
matches every model. -/
theorem empty_patterns_match_every_model :
    ProviderState.supports_model
        ⟨{ name := "P", base_url := [], api_key := "k" }, [], none, none⟩
        "gpt-4".toList = true := by
  decide

/-- **C5 (amended).** A provider whose `model_patterns` list is empty
matches *every* requested model.  If hydration fails — transport error,
non-2xx status or malformed body (`.error`), a payload without a list under
`"data"`, or a list yielding no string ids — the patterns become exactly
`["*"]`, which also matches every model; when ids are found they are stored
verbatim. -/
theorem hydration_and_empty_patterns :
    (∀ s : ProviderState, s.model_patterns = [] →
      ∀ model, s.supports_model model = true)
    ∧ (∀ reason, hydratedPatterns (.error reason) = wildcardPatterns)
    ∧ (∀ payload, payloadDataEntries payload = none →
        hydratedPatterns (.ok payload) = wildcardPatterns)
    ∧ (∀ payload entries, payloadDataEntries payload = some entries →
        hydrationIds entries = [] →
        hydratedPatterns (.ok payload) = wildcardPatterns)
    ∧ (∀ payload entries, payloadDataEntries payload = some entries →
        hydrationIds entries ≠ [] →
        hydratedPatterns (.ok payload) = hydrationIds entries)
    ∧ (∀ s : ProviderState, s.model_patterns = wildcardPatterns →
        ∀ model, s.supports_model model = true) := by
  refine ⟨?_, fun reason => rfl, ?_, ?_, ?_, ?_⟩
  · intro s hempty model
    rw [ProviderState.supports_model, if_pos (by simp [hempty])]
  · intro payload hnone
    rw [hydratedPatterns, hnone]
  · intro payload entries hsome hids
    rw [hydratedPatterns, hsome]
    simp [hids]
  · intro payload entries hsome hids
    rw [hydratedPatterns, hsome]
    simp [List.isEmpty_iff, hids]
  · intro s hwild model
    rw [ProviderState.supports_model, if_neg (by simp [hwild, wildcardPatterns])]
    rw [hwild]
    simp [wildcardPatterns, matchModelPattern_wildcard]

/-- C5 witness: a failed fetch hydrates to `["*"]`; a provider carrying
`["*"]` supports an arbitrary model id; a well-formed payload stores its
ids. -/
theorem hydration_and_empty_patterns_witness :
    hydratedPatterns (.error "timeout") = wildcardPatterns
      ∧ ProviderState.supports_model
          ⟨{ name := "P", base_url := [], api_key := "k" }, wildcardPatterns, none, none⟩
          "claude-3-opus".toList = true
      ∧ hydratedPatterns
          (.ok (.obj [("data", .arr [.obj [("id", .str "gpt-4o")]])]))
        = ["gpt-4o".toList] := by
  refine ⟨hydration_and_empty_patterns.2.1 "timeout", ?_, ?_⟩
  · exact hydration_and_empty_patterns.2.2.2.2.2 _ rfl _
  · exact hydration_and_empty_patterns.2.2.2.2.1
      (.obj [("data", .arr [.obj [("id", .str "gpt-4o")]])])
      [.obj [("id", .str "gpt-4o")]] rfl
      (fun h => by
        rw [show hydrationIds [JValue.obj [("id", JValue.str "gpt-4o")]]
            = ["gpt-4o".toList] from rfl] at h
        exact List.noConfusion h)

/-- **C6 counterexample.** The claim covers the upstream URL of *every*
dispatch attempt.  `ProxyEngine.dispatch` (line 529) joins by plain
concatenation with one slash and never drops a duplicate boundary segment:
base `https://up.example/v1` plus inbound `/v1/chat/completions` yields
`.../v1/v1/chat/completions`, not the deduplicated URL the claim requires.
Only the backend's `join_base_url` implements the reconciliation rules. -/
theorem dispatch_url_keeps_duplicate_segment :
    dispatchAttemptUrl "https://up.example/v1".toList "/v1/chat/completions".toList
      = "https://up.example/v1/v1/chat/completions".toList
    ∧ dispatchAttemptUrl "https://up.example/v1".toList "/v1/chat/completions".toList
      ≠ "https://up.example/v1/chat/completions".toList := by
  constructor
  · rfl
  · decide

/-- **C6 (amended).** The rules hold for the backend URL composer
`join_base_url`: an exact duplicate boundary segment is dropped from the
base; otherwise two differing `v<digits>[beta<digits>]` boundary segments
keep the base's version and drop the inbound one; and the slash-placement
step always joins the two parts with exactly one boundary slash (canonical
`base ++ "/" ++ path` after trimming one slash from each side).  The uniapi
`ProxyEngine.dispatch` instead builds `normalized_base_url() + "/" +
path.lstrip("/")`, with no segment reconciliation. -/
theorem url_composition_rules (basePath path : Str) :
    (∀ seg, (segs basePath).getLast? = some seg → (segs path).head? = some seg →
      segs (joinBasePath basePath path) = (segs basePath).dropLast ++ segs path)
    ∧ (∀ sb sp, (segs basePath).getLast? = some sb → (segs path).head? = some sp →
        sb ≠ sp → isVersionSegment sb = true → isVersionSegment sp = true →
        segs (joinBasePath basePath path) = segs basePath ++ (segs path).tail)
    ∧ slashJoin basePath path
        = dropTrailingSlash basePath ++ '/' :: dropLeadingSlash path := by
  refine ⟨?_, ?_, slashJoin_eq_canonical basePath path⟩
  · intro seg hb hp
    exact joinBasePath_duplicate basePath path seg hb hp
  · intro sb sp hb hp hne hvb hvp
    exact joinBasePath_version basePath path sb sp hb hp hne hvb hvp

/-- C6 witness: base `/v1` + path `/v1/chat/completions` drops the
duplicate `v1`; base `/v3` + path `/v1/chat` keeps the base's `v3` and drops
the inbound `v1`. -/
theorem url_composition_rules_witness :
    segs (joinBasePath "/v1".toList "/v1/chat/completions".toList)
      = (segs "/v1".toList).dropLast ++ segs "/v1/chat/completions".toList
    ∧ segs (joinBasePath "/v3".toList "/v1/chat".toList)
      = segs "/v3".toList ++ (segs "/v1/chat".toList).tail := by
  constructor
  · exact (url_composition_rules "/v1".toList "/v1/chat/completions".toList).1
      "v1".toList (by decide) (by decide)
  · exact (url_composition_rules "/v3".toList "/v1/chat".toList).2.1
      "v3".toList "v1".toList (by decide) (by decide) (by decide) (by decide) (by decide)

/-- **C7 counterexample.** The claim says every inbound request's streaming
flag follows rules (1)-(4); in particular a top-level numeric `stream` field
is coerced by truthiness (rule 3), as `_is_streaming_request` indeed does
(`{"stream": 2}` → streaming).  The backend gateway decides with
`_parse_stream_flag`, which compares numbers against `1` and consults
neither the Accept header nor the query string: the same body yields
non-streaming there. -/
theorem backend_stream_decision_breaks_rules :
    parseStreamFlag (some (.obj [("stream", JValue.num 2)])) = false
    ∧ isStreamingRequest
        { method := "POST", path := [],
          headers := [("content-type", "application/json")],
          queryItems := [],
          bodyNonempty := true,
          bodyJson := some (.obj [("stream", JValue.num 2)]) } = true := by
  constructor
  · rfl
  · rfl

/-- **C7 (amended).** For `_is_streaming_request` (the uniapi dispatcher's
pre-upstream decision) the four rules hold in order: an Accept header
containing `text/event-stream` decides streaming; otherwise the first
`stream`/`streaming` query parameter with a recognised truthy/falsy literal
decides, overriding the body; otherwise a JSON body's top-level `stream`
(falling back to `streaming`) field is coerced — booleans as themselves,
numbers by Python truthiness, strings via the truthy/falsy literals;
otherwise the request is non-streaming.  The backend gateway's
`_parse_stream_flag` does not implement rules (1) and (2) and coerces
numbers by equality with 1. -/
theorem streaming_intent_rules (r : InboundRequest) :
    (strContains (lowerStr (headerGetD r.headers "accept")) "text/event-stream" = true →
      isStreamingRequest r = true)
    ∧ (∀ b, strContains (lowerStr (headerGetD r.headers "accept")) "text/event-stream" = false →
        queryStreamDecision r.queryItems = some b → isStreamingRequest r = b)
    ∧ (∀ fields,
        strContains (lowerStr (headerGetD r.headers "accept")) "text/event-stream" = false →
        queryStreamDecision r.queryItems = none →
        strContains (lowerStr (headerGetD r.headers "content-type")) "application/json" = true →
        r.bodyNonempty = true →
        r.bodyJson = some (.obj fields) →
        isStreamingRequest r = coerceStreamValue
          (match jGet fields "stream" with
           | some v => some v
           | none => jGet fields "streaming"))
    ∧ (strContains (lowerStr (headerGetD r.headers "accept")) "text/event-stream" = false →
        queryStreamDecision r.queryItems = none →
        (strContains (lowerStr (headerGetD r.headers "content-type")) "application/json" = false
          ∨ r.bodyNonempty = false
          ∨ (∀ fields, r.bodyJson ≠ some (.obj fields))) →
        isStreamingRequest r = false)
    ∧ (∀ b, coerceStreamValue (some (.bool b)) = b)
    ∧ (∀ q : ℚ, coerceStreamValue (some (.num q)) = !decide (q = 0))
    ∧ (∀ str : String, TRUTHY_STRINGS.contains (lowerStr str) = true →
        coerceStreamValue (some (.str str)) = true)
    ∧ (∀ str : String, FALSY_STRINGS.contains (lowerStr str) = true →
        coerceStreamValue (some (.str str)) = false) := by
  refine ⟨?_, ?_, ?_, ?_, fun b => rfl, fun q => rfl, ?_, ?_⟩
  · intro h
    rw [isStreamingRequest, if_pos h]
  · intro b haccept hquery
    rw [isStreamingRequest, if_neg (by simp [haccept]), hquery]
  · intro fields haccept hquery hct hbody hjson
    rw [isStreamingRequest, if_neg (by simp [haccept]), hquery]
    rw [hct, hbody, hjson]
    simp
  · intro haccept hquery hfall
    rw [isStreamingRequest, if_neg (by simp [haccept]), hquery]
    rcases hfall with hct | hbody | hjson
    · rw [hct]
      simp
    · rw [hbody]
      simp
    · by_cases hct : strContains (lowerStr (headerGetD r.headers "content-type"))
          "application/json" = true
      · rw [hct]
        by_cases hbody : r.bodyNonempty = true
        · rw [hbody]
          simp only [Bool.not_true, Bool.or_self, if_false]
          cases hb : r.bodyJson with
          | none => rfl
          | some v =>
            cases v with
            | obj fields => exact absurd hb (hjson fields)
            | null => rfl
            | bool b => rfl
            | num q => rfl
            | str s => rfl
            | arr items => rfl
        · rw [Bool.not_eq_true] at hbody
          rw [hbody]
          simp
      · rw [Bool.not_eq_true] at hct
        rw [hct]
        simp
  · intro str htruthy
    rw [coerceStreamValue, if_pos htruthy]
  · intro str hfalsy
    by_cases htruthy : TRUTHY_STRINGS.contains (lowerStr str) = true
    · exfalso
      have h1 : lowerStr str ∈ TRUTHY_STRINGS := List.elem_iff.mp htruthy
      have h2 : lowerStr str ∈ FALSY_STRINGS := List.elem_iff.mp hfalsy
      simp only [TRUTHY_STRINGS, FALSY_STRINGS, List.mem_cons,
        List.not_mem_nil, or_false] at h1 h2
      rcases h1 with h | h | h | h <;> rcases h2 with h' | h' | h' | h' <;>
        (rw [h] at h'; exact absurd h' (by decide))
    · rw [coerceStreamValue, if_neg htruthy, if_pos hfalsy]

/-- C7 witness: `Accept: text/event-stream` forces streaming; a
`?stream=false` query parameter forces non-streaming over a streaming body;
a falsy-string body field is non-streaming. -/
theorem streaming_intent_rules_witness :
    isStreamingRequest
        { method := "POST", path := [], headers := [("Accept", "text/event-stream")],
          queryItems := [], bodyNonempty := false, bodyJson := none } = true
    ∧ isStreamingRequest
        { method := "POST", path := [],
          headers := [("content-type", "application/json")],
          queryItems := [("stream", "false")],
          bodyNonempty := true,
          bodyJson := some (.obj [("stream", JValue.bool true)]) } = false
    ∧ coerceStreamValue (some (.str "off")) = false := by
  refine ⟨?_, ?_, ?_⟩
  · exact (streaming_intent_rules _).1 (by decide)
  · exact (streaming_intent_rules _).2.1 false (by decide) (by decide)
  · exact (streaming_intent_rules
      { method := "POST", path := [], headers := [], queryItems := [],
        bodyNonempty := false, bodyJson := none }).2.2.2.2.2.2.2 "off" (by decide)

/-- **C8 counterexample.** The claim says every upstream request carries
exactly one injected auth header chosen by mirroring the inbound scheme.
The backend gateway chooses by *provider type* instead, and for an
`anthropic` provider injects two auth headers (`Authorization` and
`x-api-key`) even though the client sent only `Authorization`. -/
theorem backend_anthropic_double_auth_header :
    ((backendForwardHeaders
        [("Authorization", "Bearer client-key"), ("accept", "text/plain")]
        "anthropic" "sk-up").filter
      (fun kv => AUTH_HEADERS.contains (lowerStr kv.1))).length = 2 := by
  decide

theorem contains_false_not_mem (l : List String) (a : String)
    (h : l.contains a = false) : a ∉ l := fun hmem => by
  have htrue : l.contains a = true := List.elem_iff.mpr hmem
  rw [htrue] at h
  cases h

theorem cleanHeaders_no_auth (headers : List (String × String)) (skip : List String) :
    ∀ kv ∈ cleanHeaders headers skip, AUTH_HEADERS.contains (lowerStr kv.1) = false := by
  intro kv hkv
  have hcond := (List.mem_filter.mp hkv).2
  simp only [Bool.and_eq_true, Bool.not_eq_true'] at hcond
  cases hcontains : AUTH_HEADERS.contains (lowerStr kv.1) with
  | false => rfl
  | true =>
    exfalso
    have hmem : lowerStr kv.1 ∈ AUTH_HEADERS := List.elem_iff.mp hcontains
    have hskip : lowerStr kv.1 ∈ skip.map (fun k => lowerStr k)
        ++ ["authorization", "x-api-key", "x-goog-api-key", "host"] := by
      simp only [AUTH_HEADERS, List.mem_cons, List.not_mem_nil, or_false] at hmem
      rcases hmem with h | h | h <;> simp [h]
    exact contains_false_not_mem _ _ hcond.2 hskip

theorem determineAuthHeader_name (headers : List (String × String)) :
    AUTH_HEADERS.contains (lowerStr (determineAuthHeader headers).1) = true := by
  rw [determineAuthHeader]
  by_cases h1 : headerGetD headers "x-goog-api-key" ≠ ""
  · rw [if_pos h1]
    decide
  · rw [if_neg h1]
    by_cases h2 : headerGetD headers "x-api-key" ≠ ""
    · rw [if_pos h2]
      decide
    · rw [if_neg h2]
      by_cases h3 : headerGetD headers "authorization" ≠ ""
      · rw [if_pos h3]
        rcases hpart : partitionSpace (headerGetD headers "authorization")
          with ⟨scheme, found, token⟩
        cases found <;>
          exact (by decide : AUTH_HEADERS.contains (lowerStr "Authorization") = true)
      · rw [if_neg h3]
        decide

/-- **C8 (amended).** In the uniapi dispatcher: the headers sent upstream
carry none of the inbound `authorization`, `x-api-key` or `x-goog-api-key`
headers — the only auth-named entry is the single injected credential —
and the injected header mirrors the inbound scheme: the same `x-goog-api-key`
or `x-api-key` name with the key verbatim, otherwise `Authorization` with
the inbound scheme (or `Bearer` by default).  The backend gateway also
strips all inbound auth headers, but injects by provider type (anthropic
providers receive two auth headers). -/
theorem auth_header_injection (headers : List (String × String)) (apiKey : String) :
    ((upstreamHeaders headers apiKey).filter
        (fun kv => AUTH_HEADERS.contains (lowerStr kv.1)))
      = [((determineAuthHeader headers).1,
          pyStrip ((determineAuthHeader headers).2 ++ apiKey))]
    ∧ (headerGetD headers "x-goog-api-key" ≠ "" →
        determineAuthHeader headers = ("x-goog-api-key", ""))
    ∧ (headerGetD headers "x-goog-api-key" = "" → headerGetD headers "x-api-key" ≠ "" →
        determineAuthHeader headers = ("x-api-key", ""))
    ∧ (headerGetD headers "x-goog-api-key" = "" → headerGetD headers "x-api-key" = "" →
        headerGetD headers "authorization" = "" →
        determineAuthHeader headers = ("Authorization", "Bearer "))
    ∧ (∀ scheme rest, headerGetD headers "x-goog-api-key" = "" →
        headerGetD headers "x-api-key" = "" →
        headerGetD headers "authorization" ≠ "" →
        partitionSpace (headerGetD headers "authorization") = (scheme, true, rest) →
        determineAuthHeader headers = ("Authorization", scheme ++ " "))
    ∧ (∀ kv ∈ filteredHeaders headers, AUTH_HEADERS.contains (lowerStr kv.1) = false) := by
  refine ⟨?_, ?_, ?_, ?_, ?_, ?_⟩
  · rw [upstreamHeaders]
    rw [List.filter_append]
    have hclean : (cleanHeaders headers [(determineAuthHeader headers).1]).filter
        (fun kv => AUTH_HEADERS.contains (lowerStr kv.1)) = [] := by
      rw [List.filter_eq_nil_iff]
      intro kv hkv
      rw [cleanHeaders_no_auth headers _ kv hkv]
      simp
    rw [hclean, List.nil_append]
    rw [List.filter_cons_of_pos (by simpa using determineAuthHeader_name headers)]
    rfl
  · intro h1
    rw [determineAuthHeader, if_pos h1]
  · intro h1 h2
    rw [determineAuthHeader, if_neg (by simp [h1]), if_pos h2]
  · intro h1 h2 h3
    rw [determineAuthHeader, if_neg (by simp [h1]), if_neg (by simp [h2])]
    simp only [h3]
    rw [if_neg (by simp)]
  · intro scheme rest h1 h2 h3 hpart
    rw [determineAuthHeader, if_neg (by simp [h1]), if_neg (by simp [h2])]
    simp only []
    rw [if_pos h3, hpart]
    simp
  · intro kv hkv
    have hcond := (List.mem_filter.mp hkv).2
    simp only [Bool.and_eq_true, Bool.not_eq_true'] at hcond
    exact hcond.2

/-- C8 witness: a client sending `x-api-key` sees its key replaced by the
provider's under the same header name, and the only auth-named entry in the
upstream headers is that single injected one. -/
theorem auth_header_injection_witness :
    ((upstreamHeaders [("x-api-key", "client-key"), ("accept", "text/plain")]
        "sk-up").filter
      (fun kv => AUTH_HEADERS.contains (lowerStr kv.1)))
      = [("x-api-key", "sk-up")]
    ∧ determineAuthHeader [("x-api-key", "client-key"), ("accept", "text/plain")]
      = ("x-api-key", "") := by
  constructor
  · have h := (auth_header_injection
      [("x-api-key", "client-key"), ("accept", "text/plain")] "sk-up").1
    rw [h]
    rfl
  · exact (auth_header_injection
      [("x-api-key", "client-key"), ("accept", "text/plain")] "sk-up").2.2.1
      (by decide) (by decide)

/-- **C9 counterexample.** The claim says no `content-encoding` header from
upstream is forwarded and every other header is preserved.  The uniapi
`_apply_response_headers` does not drop `content-encoding` (it is not in
`HOP_BY_HOP_HEADERS`), and both variants drop `content-length`, which the
claim counts among the preserved "all other" headers. -/
theorem response_headers_forward_content_encoding :
    applyResponseHeaders
        [("Content-Encoding", "gzip"), ("Content-Type", "application/json")]
      = [("Content-Encoding", "gzip"), ("Content-Type", "application/json")]
    ∧ applyResponseHeaders [("Content-Length", "42")] = [] := by
  constructor
  · decide
  · decide

/-- **C9 (amended).** The uniapi `_apply_response_headers` forwards exactly
the upstream headers whose lowercased name is outside `HOP_BY_HOP_HEADERS`
(so `transfer-encoding` and `connection` never appear downstream, but
`content-length` is also dropped and `content-encoding` is preserved); the
backend `_response_headers` filters by its own hop-by-hop set and
additionally drops `content-encoding`. -/
theorem response_header_filtering (source : List (String × String)) :
    (∀ kv, kv ∈ applyResponseHeaders source ↔
      kv ∈ source ∧ HOP_BY_HOP_HEADERS.contains (lowerStr kv.1) = false)
    ∧ (∀ kv ∈ applyResponseHeaders source,
        lowerStr kv.1 ≠ "transfer-encoding" ∧ lowerStr kv.1 ≠ "connection")
    ∧ (∀ kv, kv ∈ backendResponseHeaders source ↔
        kv ∈ source ∧ BACKEND_HOP_BY_HOP_HEADERS.contains (lowerStr kv.1) = false
          ∧ lowerStr kv.1 ≠ "content-encoding")
    ∧ (∀ kv ∈ backendResponseHeaders source,
        lowerStr kv.1 ≠ "transfer-encoding" ∧ lowerStr kv.1 ≠ "connection"
          ∧ lowerStr kv.1 ≠ "content-encoding") := by
  have happly : ∀ kv, kv ∈ applyResponseHeaders source ↔
      kv ∈ source ∧ HOP_BY_HOP_HEADERS.contains (lowerStr kv.1) = false := by
    intro kv
    rw [applyResponseHeaders, List.mem_filter]
    simp
  have hbackend : ∀ kv, kv ∈ backendResponseHeaders source ↔
      kv ∈ source ∧ BACKEND_HOP_BY_HOP_HEADERS.contains (lowerStr kv.1) = false
        ∧ lowerStr kv.1 ≠ "content-encoding" := by
    intro kv
    rw [backendResponseHeaders, List.mem_filter]
    simp
  refine ⟨happly, ?_, hbackend, ?_⟩
  · intro kv hkv
    have h := ((happly kv).mp hkv).2
    constructor
    · intro heq
      exact contains_false_not_mem _ _ h (by rw [heq]; decide)
    · intro heq
      exact contains_false_not_mem _ _ h (by rw [heq]; decide)
  · intro kv hkv
    obtain ⟨-, h, hce⟩ := (hbackend kv).mp hkv
    refine ⟨?_, ?_, hce⟩
    · intro heq
      exact contains_false_not_mem _ _ h (by rw [heq]; decide)
    · intro heq
      exact contains_false_not_mem _ _ h (by rw [heq]; decide)

/-- C9 witness: a `content-type` header is preserved by both variants, and
`transfer-encoding` is dropped by both. -/
theorem response_header_filtering_witness :
    ("Content-Type", "text/event-stream")
      ∈ applyResponseHeaders
          [("Transfer-Encoding", "chunked"), ("Content-Type", "text/event-stream")]
    ∧ ("Transfer-Encoding", "chunked")
      ∉ backendResponseHeaders
          [("Transfer-Encoding", "chunked"), ("Content-Type", "text/event-stream")] := by
  constructor
  · exact ((response_header_filtering
      [("Transfer-Encoding", "chunked"), ("Content-Type", "text/event-stream")]).1
      ("Content-Type", "text/event-stream")).mpr ⟨by decide, by decide⟩
  · intro hmem
    have := ((response_header_filtering
      [("Transfer-Encoding", "chunked"), ("Content-Type", "text/event-stream")]).2.2.1
      ("Transfer-Encoding", "chunked")).mp hmem
    exact absurd this.2.1 (by decide)

/-- **C1 (code bug).** The claim — the caller sees either the upstream's
own response or one of the synthesized 401/400/502/503, dispatch never
surfaces an uncaught exception, internal errors yield 502, and a
model-bearing request with an eligible healthy provider completes — states
the spec's clear intent (§7, §4.8), but the staged code breaks it:
`ProxyEngine.dispatch` evaluates `state.get_provider_model(model)`
(`src/uniapi/app.py` line 533) before the `try:` of the loop body, and the
staged `ProviderState` (`src/uniapi/provider_pool.py` lines 19-51) defines
no such method, so every model-bearing dispatch that reaches a candidate
raises an uncaught `AttributeError` before any upstream request.  Evaluated
at the claim's own happy-path scenario — empty global key, one enabled
healthy wildcard provider, upstream answering 200 — the pipeline ends in
the uncaught exception, not one of the claimed responses. -/
theorem model_dispatch_uncaught_attribute_error :
    handleRequest { api_key := "" }
        [⟨{ name := "P", base_url := [], api_key := "k" }, [['*']], none, none⟩] 0 id
        (fun _ => .response ⟨200, [("content-type", "application/json")], [111]⟩)
        { method := "POST", path := "/v1/chat/completions".toList,
          headers := [("content-type", "application/json")],
          queryItems := [],
          bodyNonempty := true,
          bodyJson := some (.obj [("model", JValue.str "gpt-4")]) }
      = .uncaught
          "AttributeError: 'ProviderState' object has no attribute 'get_provider_model'" := by
  decide

end UniAPI
